import Mathlib

/-!
Verification of the x-ui Telegram bot's panel adapter (`xui_client.py`) and the
client-provisioning retry loop (`bot.py`, `_create_client_for_inbound`).

The HTTP layer is modelled as an explicit environment: the roster the panel
would return from a fresh `get_inbounds` fetch is a `List Inbound` threaded as
state, authentication and per-URL endpoint outcomes are fields of an
environment record, and Python exceptions that the source catches are modelled
as `Option`-valued decoding steps whose `none` branch takes the source's
`except` path.  Pure helpers (URI synthesis, suffix parsing, base64) are
translated directly.  Names follow the Python source where Lean allows it
(leading underscores of private Python methods are dropped).
-/

/-! ### String helpers -/

theorem string_ext {a b : String} (h : a.data = b.data) : a = b := by
  cases a; cases b; exact congrArg String.mk h

theorem string_data_append (a b : String) : (a ++ b).data = a.data ++ b.data := rfl

theorem string_append_assoc (a b c : String) : a ++ b ++ c = a ++ (b ++ c) := by
  apply string_ext
  simp only [string_data_append, List.append_assoc]

theorem string_length_data (s : String) : s.length = s.data.length := rfl

/-- Substring test, modelling Python's `needle in haystack`. -/
def strContains (hay needle : String) : Bool :=
  hay.data.tails.any (fun t => needle.data.isPrefixOf t)

/-- `startswith`, as a character-list prefix test. -/
def strIsPrefixOf (p s : String) : Bool :=
  p.data.isPrefixOf s.data

/-- `str.lower()`, character-wise. -/
def strToLower (s : String) : String :=
  String.mk (s.data.map Char.toLower)

/-! ### Data model

A panel client record, with the fields the `new_client` dictionary of
`add_client_to_inbound` carries. -/

structure Client where
  id : String := ""
  flow : String := ""
  email : String := ""
  limitIp : Int := 0
  totalGB : Int := 0
  expiryTime : Int := 0
  enable : Bool := true
  tgId : String := ""
  subId : String := ""
  comment : String := ""
  reset : Int := 0
deriving Repr, DecidableEq

/-- The decoded `settings` object of an inbound; the adapter only ever reads
its `clients` array. -/
structure Settings where
  clients : List Client := []
deriving Repr, DecidableEq

/-- The raw `settings` field of an inbound as the panel serves it: the key may
be missing (the source substitutes a literal empty JSON object), empty (falsy,
the source substitutes an empty dict), well-formed JSON, or malformed JSON
(`json.loads` raises and the enclosing handler catches). -/
inductive SettingsBlob where
  | absent
  | emptyStr
  | json (s : Settings)
  | malformed
deriving Repr, DecidableEq

/-- `settings = json.loads(settings_str) if settings_str else ...` followed by
`settings.get("clients", [])`; `none` means `json.loads` raised. -/
def clientsOfBlob : SettingsBlob → Option (List Client)
  | SettingsBlob.absent => some []
  | SettingsBlob.emptyStr => some []
  | SettingsBlob.json s => some s.clients
  | SettingsBlob.malformed => none

structure Inbound where
  id : Int := 0
  settings : SettingsBlob := SettingsBlob.absent
  port : Int := 0
  remark : String := ""
deriving Repr, DecidableEq

/-- Environment for one panel call: `authOk` is the outcome of
`_ensure_authenticated` (its `Exception` branch when false), `httpOk u` says
whether a POST to mutation URL `u` comes back as HTTP 200 with a JSON body
whose `success` field is true, `genUuid`/`genSubId` are the values the source
draws from `uuid4()` and `random.choices`, and `nowMs` is
`int(time.time() * 1000)`. -/
structure XUIEnv where
  authOk : Bool := true
  httpOk : String → Bool := fun _ => true
  genUuid : String := ""
  genSubId : String := ""
  nowMs : Int := 0
  baseUrl : String := ""

/-- What `self.get_inbounds()` hands back to the repository-level methods:
the panel's inbound list on success, `[]` when authentication failed. -/
def fetchInbounds (env : XUIEnv) (panel : List Inbound) : List Inbound :=
  if env.authOk then panel else []

/-- Re-serialize a mutated `settings` object back into the inbound with the
given id (the effect of a successful addClient / update mutation). -/
def setInboundSettings (panel : List Inbound) (inbound_id : Int) (s : Settings) :
    List Inbound :=
  panel.map (fun i => if i.id == inbound_id then { i with settings := SettingsBlob.json s } else i)

/-- The client roster the panel currently holds for an inbound (for stating
roster-size properties). -/
def clientsOfInbound (panel : List Inbound) (inbound_id : Int) : List Client :=
  match List.find? (fun i => i.id == inbound_id) panel with
  | none => []
  | some i => (clientsOfBlob i.settings).getD []

/-- Update the first element satisfying `p` (Python mutates, in place, the
single dict that `next(...)` located). -/
def updateFirst (p : Client → Bool) (f : Client → Client) : List Client → List Client
  | [] => []
  | c :: rest => if p c then f c :: rest else c :: updateFirst p f rest

/-- Walk a candidate URL list, issuing a request to each until one succeeds:
returns the URLs actually requested and whether one of them succeeded. -/
def firstOk (ok : String → Bool) : List String → List String × Bool
  | [] => ([], false)
  | u :: rest =>
    if ok u then ([u], true)
    else
      let r := firstOk ok rest
      (u :: r.1, r.2)

/-! ### Python `int()` on a suffix string

`int(suffix)` strips surrounding whitespace, allows one sign, and accepts
digit groups separated by single underscores (ASCII digits modelled). -/

def pyDigitsTail : List Char → Bool
  | [] => true
  | '_' :: c :: rest => c.isDigit && pyDigitsTail rest
  | c :: rest => c.isDigit && pyDigitsTail rest

def pyDigitsOk : List Char → Bool
  | [] => false
  | c :: rest => c.isDigit && pyDigitsTail rest

def digitsVal (l : List Char) : Nat :=
  l.foldl (fun acc c => if c.isDigit then acc * 10 + (c.toNat - 48) else acc) 0

def pyInt? (s : String) : Option Int :=
  let t := ((s.data.dropWhile Char.isWhitespace).reverse.dropWhile Char.isWhitespace).reverse
  match t with
  | '-' :: rest => if pyDigitsOk rest then some (-(digitsVal rest : Int)) else none
  | '+' :: rest => if pyDigitsOk rest then some ((digitsVal rest : Int)) else none
  | rest => if pyDigitsOk rest then some ((digitsVal rest : Int)) else none

/-! ### Identifier allocator (`get_next_available_email`) -/

/-- Record one email into the `(has_base_email, used_numbers)` accumulator:
the bare base counts as suffix 0, `base_N` contributes `int(N)` when it
parses, anything else is ignored. -/
def noteEmail (base : String) (st : Bool × List Int) (e : String) : Bool × List Int :=
  if e == base then (true, st.2 ++ [0])
  else if strIsPrefixOf (base ++ "_") e then
    match pyInt? (e.drop (base ++ "_").length) with
    | some n => (st.1, st.2 ++ [n])
    | none => st
  else st

/-- The `while next_number in used_numbers: next_number += 1` scan; the fuel
bounds the number of collisions, which cannot exceed the size of the used
set, so the extra unit keeps the base case unreachable while occupied. -/
def scanFree (used : List Int) : Nat → Nat → Nat
  | 0, n => n
  | Nat.succ fuel, n => if used.contains (Int.ofNat n) then scanFree used fuel (n + 1) else n

def nextFreeNumber (used : List Int) : Nat :=
  scanFree used (used.length + 1) 1

def get_next_available_email (env : XUIEnv) (panel : List Inbound) (inbound_id : Int)
    (base_username : String) (excluded_emails : List String) : String :=
  if !env.authOk then base_username ++ "_1"
  else
    match List.find? (fun i => i.id == inbound_id) (fetchInbounds env panel) with
    | none => base_username ++ "_1"
    | some inbound =>
      match clientsOfBlob inbound.settings with
      | none => base_username ++ "_1"
      | some clients =>
        let st := excluded_emails.foldl (noteEmail base_username) (false, [])
        let st := clients.foldl
          (fun acc c =>
            if excluded_emails.contains c.email then acc
            else noteEmail base_username acc c.email)
          st
        let has_base_email := st.1
        let used_numbers := st.2
        let next_number :=
          if !has_base_email && !(used_numbers.contains 0) then 1
          else nextFreeNumber used_numbers
        base_username ++ "_" ++ toString next_number

/-! ### Repository operations -/

def get_inbound_clients (env : XUIEnv) (panel : List Inbound) (inbound_id : Int) :
    List Client :=
  if !env.authOk then []
  else
    match List.find? (fun i => i.id == inbound_id) (fetchInbounds env panel) with
    | none => []
    | some inbound =>
      match clientsOfBlob inbound.settings with
      | none => []
      | some clients => clients

/-- Candidate endpoints for the dedicated addClient call, in source order. -/
def add_client_urls (base : String) : List String :=
  [ base ++ "/panel/api/inbounds/addClient",
    base ++ "/panel/panel/api/inbounds/addClient",
    base ++ "/panel/panel/api/inbound/addClient",
    base ++ "/panel/api/inbound/addClient" ]

/-- Candidate endpoints for the full-roster update fallback of
`add_client_to_inbound`, in source order. -/
def add_update_urls (base : String) (inbound_id : Int) : List String :=
  [ base ++ "/panel/api/inbound/update/" ++ toString inbound_id,
    base ++ "/panel/panel/api/inbound/update/" ++ toString inbound_id,
    base ++ "/panel/panel/inbound/update/" ++ toString inbound_id,
    base ++ "/panel/inbound/update/" ++ toString inbound_id ]

/-- Candidate endpoints tried by `update_client_expiry`, in source order. -/
def expiry_update_urls (base : String) (inbound_id : Int) : List String :=
  [ base ++ "/panel/api/inbounds/update/" ++ toString inbound_id,
    base ++ "/panel/panel/api/inbounds/update/" ++ toString inbound_id,
    base ++ "/panel/api/inbound/update/" ++ toString inbound_id,
    base ++ "/panel/panel/api/inbound/update/" ++ toString inbound_id,
    base ++ "/panel/panel/inbound/update/" ++ toString inbound_id,
    base ++ "/panel/inbound/update/" ++ toString inbound_id ]

/-- `uuid = str(uuid_lib.uuid4())` when the argument is `None` or empty. -/
def effUuid (env : XUIEnv) : Option String → String
  | some u => if u == "" then env.genUuid else u
  | none => env.genUuid

/-- The `new_client` dictionary built by `add_client_to_inbound`. -/
def mkNewClient (env : XUIEnv) (email : String) (uuid : Option String)
    (expire_time total_traffic : Option Int) : Client :=
  { id := effUuid env uuid, flow := "", email := email, limitIp := 0,
    totalGB := total_traffic.getD 0, expiryTime := expire_time.getD 0,
    enable := true, tgId := "", subId := env.genSubId, comment := "",
    reset := 0 }

/-- `add_client_to_inbound`: returns the source's boolean result, the panel
state after the call, and the mutation URLs actually requested. -/
def add_client_to_inbound (env : XUIEnv) (panel : List Inbound) (inbound_id : Int)
    (email : String) (uuid : Option String) (expire_time : Option Int)
    (total_traffic : Option Int) : Bool × List Inbound × List String :=
  if !env.authOk then (false, panel, [])
  else
    match List.find? (fun i => i.id == inbound_id) (fetchInbounds env panel) with
    | none => (false, panel, [])
    | some inbound =>
      match clientsOfBlob inbound.settings with
      | none => (false, panel, [])
      | some clients =>
        if clients.any (fun c => c.email == email) then (false, panel, [])
        else
          let new_client : Client := mkNewClient env email uuid expire_time total_traffic
          let r1 := firstOk env.httpOk (add_client_urls env.baseUrl)
          if r1.2 then
            (true, setInboundSettings panel inbound_id { clients := clients ++ [new_client] }, r1.1)
          else
            let r2 := firstOk env.httpOk (add_update_urls env.baseUrl inbound_id)
            if r2.2 then
              (true, setInboundSettings panel inbound_id { clients := clients ++ [new_client] },
                r1.1 ++ r2.1)
            else (false, panel, r1.1 ++ r2.1)

/-- `update_client_expiry`: locate the client by email, recompute its expiry,
and push the re-serialized roster through the update endpoints. -/
def update_client_expiry (env : XUIEnv) (panel : List Inbound) (inbound_id : Int)
    (email : String) (add_days : Int) : Bool × List Inbound :=
  if !env.authOk then (false, panel)
  else
    match List.find? (fun i => i.id == inbound_id) (fetchInbounds env panel) with
    | none => (false, panel)
    | some inbound =>
      match clientsOfBlob inbound.settings with
      | none => (false, panel)
      | some clients =>
        match clients.find? (fun c => c.email == email) with
        | none => (false, panel)
        | some client =>
          let current_time := env.nowMs
          let current_expiry := client.expiryTime
          let new_expiry :=
            if current_expiry = 0 ∨ current_expiry < current_time
            then current_time + add_days * 24 * 60 * 60 * 1000
            else current_expiry + add_days * 24 * 60 * 60 * 1000
          let updated := updateFirst (fun c => c.email == email)
            (fun c => { c with expiryTime := new_expiry }) clients
          let r := firstOk env.httpOk (expiry_update_urls env.baseUrl inbound_id)
          if r.2 then (true, setInboundSettings panel inbound_id { clients := updated })
          else (false, panel)

/-! ### Provisioning orchestrator (`bot.py`, `_create_client_for_inbound`) -/

/-- Result of the creation retry loop: the final `success` flag, the
`attempted_emails` list, the panel state after the loop, and the number of
1.5-second `asyncio.sleep` pauses taken. -/
structure CreateResult where
  success : Bool
  attempted : List String
  panel : List Inbound
  sleeps : Nat
deriving Repr, DecidableEq

/-- The body of `for attempt in range(max_attempts)`: allocate, record the
handle in `attempted_emails`, try the add, break on success, otherwise sleep
1.5 seconds and go round again.  `envs` gives the network's behaviour at each
attempt index. -/
def createGo (envs : Nat → XUIEnv) (inbound_id : Int) (username : String)
    (expire_time : Int) :
    Nat → Nat → List Inbound → List String → CreateResult
  | 0, _, panel, attempted => ⟨false, attempted, panel, 0⟩
  | Nat.succ remaining, k, panel, attempted =>
    let email := get_next_available_email (envs k) panel inbound_id username attempted
    let attempted := attempted ++ [email]
    let r := add_client_to_inbound (envs k) panel inbound_id email none (some expire_time) none
    if r.1 then ⟨true, attempted, r.2.1, 0⟩
    else
      let rest := createGo envs inbound_id username expire_time remaining (k + 1) r.2.1 attempted
      ⟨rest.success, rest.attempted, rest.panel, rest.sleeps + 1⟩

/-- `max_attempts = 3` in the source. -/
def max_attempts : Nat := 3

def create_client_attempts (envs : Nat → XUIEnv) (panel : List Inbound)
    (inbound_id : Int) (username : String) (expire_time : Int) : CreateResult :=
  createGo envs inbound_id username expire_time max_attempts 0 panel []

/-! ### Endpoint resolver (`get_inbounds`) -/

/-- What `response.json()` yields: a parsed body with its `success` flag and
`obj` array, or a `JSONDecodeError` (whose handler looks at whether the text
starts like an HTML document). -/
inductive RespBody where
  | json (success : Bool) (obj : List Inbound)
  | badJson (startsHtml : Bool)
deriving Repr, DecidableEq

structure HttpResp where
  status : Nat
  contentType : String
  body : RespBody
deriving Repr, DecidableEq

/-- Environment for one `get_inbounds` call: `loginOk` is the initial
`_ensure_authenticated` outcome, `resp` the response per candidate URL and
method (`none` when the request raises), `reloginOk` the outcome of the
re-login attempted on a 401/403, and `retryResp` the response to the repeated
request after that re-login. -/
structure GIEnv where
  baseUrl : String := ""
  loginOk : Bool := true
  resp : String → String → Option HttpResp := fun _ _ => none
  reloginOk : Bool := true
  retryResp : String → String → Option HttpResp := fun _ _ => none

/-- The `url_methods` candidate table of `get_inbounds`, in source order. -/
def inbound_url_methods (base : String) : List (String × String) :=
  [ (base ++ "/panel/panel/inbounds", "GET"),
    (base ++ "/panel/panel/inbounds", "POST"),
    (base ++ "/panel/panel/api/inbounds/list", "GET"),
    (base ++ "/panel/panel/api/inbounds/list", "POST"),
    (base ++ "/panel/panel/api/inbounds", "GET"),
    (base ++ "/panel/panel/api/inbounds", "POST"),
    (base ++ "/panel/api/inbounds/list", "GET"),
    (base ++ "/panel/api/inbounds/list", "POST"),
    (base ++ "/panel/api/inbounds", "GET"),
    (base ++ "/panel/api/inbounds", "POST"),
    (base ++ "/panel/inbounds/list", "GET"),
    (base ++ "/panel/inbounds/list", "POST"),
    (base ++ "/panel/inbounds", "GET"),
    (base ++ "/panel/inbounds", "POST") ]

/-- Handle one candidate of the `get_inbounds` loop: `some obj` means the
candidate was accepted and the operation returns `obj`; `none` means the loop
moves on to the next candidate. -/
def processCandidate (env : GIEnv) (url method : String) : Option (List Inbound) :=
  match env.resp url method with
  | none => none
  | some r =>
    if r.status = 200 then
      let ct := strToLower r.contentType
      if !(strContains ct "application/json") && strContains ct "text/html" then none
      else
        match r.body with
        | RespBody.json success obj => if success then some obj else none
        | RespBody.badJson _ => none
    else if r.status = 404 then none
    else if r.status = 401 ∨ r.status = 403 then
      if env.reloginOk then
        match env.retryResp url method with
        | none => none
        | some rr =>
          if rr.status = 200 then
            match rr.body with
            | RespBody.json success obj => if success then some obj else none
            | RespBody.badJson _ => none
          else none
      else none
    else none

/-- The candidate loop: stop at the first accepted candidate, fall through to
`[]` when the table is exhausted. -/
def resolveInbounds (env : GIEnv) : List (String × String) → List Inbound
  | [] => []
  | (u, m) :: rest =>
    match processCandidate env u m with
    | some obj => obj
    | none => resolveInbounds env rest

def get_inbounds (env : GIEnv) : List Inbound :=
  if !env.loginOk then []
  else resolveInbounds env (inbound_url_methods env.baseUrl)

/-! ### URI synthesizers -/

/-- Python's `str.split(sep)` on character lists (non-empty separator,
non-overlapping left-to-right matches); the fuel is bounded by the input
length, which each step strictly shrinks. -/
def splitFuel (sep : List Char) : Nat → List Char → List Char → List (List Char)
  | 0, l, cur => [cur.reverse ++ l]
  | Nat.succ fuel, l, cur =>
    match l with
    | [] => [cur.reverse]
    | c :: rest =>
      if sep.isPrefixOf (c :: rest) then
        cur.reverse :: splitFuel sep fuel (List.drop sep.length (c :: rest)) []
      else splitFuel sep fuel rest (c :: cur)

def pySplit (s sep : String) : List String :=
  (splitFuel sep.data (s.data.length + 1) s.data []).map String.mk

/-- `self.base_url.split("://")[1].split(":")[0]` with the no-scheme fallback. -/
def serverFromBaseUrl (base_url : String) : String :=
  if strContains base_url "://" then
    match pySplit base_url "://" with
    | _ :: second :: _ => ((pySplit second ":").headD "")
    | _ => ""
  else "your-server.com"

/-- The `realitySettings.settings` sub-object.  `none` models a missing key
(the source reads every key through `.get` with a default). -/
structure RealityInner where
  publicKey : Option String := none
  fingerprint : Option String := none
  serverName : Option String := none
  spiderX : Option String := none

/-- The `realitySettings` object of a stream-settings record. -/
structure RealitySettings where
  settings : RealityInner := {}
  serverNames : List String := []
  shortIds : List String := []

/-- The decoded `streamSettings` record, flattened to the keys the
synthesizers read (`wsHost` stands for `wsSettings.headers.Host`, `wsPath`
for `wsSettings.path`). -/
structure StreamSettings where
  network : Option String := none
  security : Option String := none
  wsHost : Option String := none
  wsPath : Option String := none
  realitySettings : Option RealitySettings := none

def generate_vless_config (base_url uuid : String) (port : Int) (remark : String)
    (stream_settings : StreamSettings) : String :=
  let network := stream_settings.network.getD "tcp"
  let security := stream_settings.security.getD "none"
  let host := stream_settings.wsHost.getD ""
  let path := stream_settings.wsPath.getD "/"
  let server := serverFromBaseUrl base_url
  let config := "vless://" ++ uuid ++ "@" ++ server ++ ":" ++ toString port
    ++ "?type=" ++ network ++ "&security=" ++ security
  let config :=
    if security == "reality" then
      let reality_settings := stream_settings.realitySettings.getD {}
      let reality_config := reality_settings.settings
      let public_key := reality_config.publicKey.getD ""
      let config := if public_key == "" then config else config ++ "&pbk=" ++ public_key
      let fingerprint := reality_config.fingerprint.getD "chrome"
      let config := if fingerprint == "" then config else config ++ "&fp=" ++ fingerprint
      let server_name := reality_config.serverName.getD ""
      let server_name :=
        if server_name == "" then
          match reality_settings.serverNames with
          | [] => server_name
          | n :: _ => n
        else server_name
      let config := if server_name == "" then config else config ++ "&sni=" ++ server_name
      let config :=
        match reality_settings.shortIds with
        | [] => config
        | sid :: _ => config ++ "&sid=" ++ sid
      let spider_x := reality_config.spiderX.getD "/"
      if spider_x == "" then config else config ++ "&spx=" ++ spider_x
    else config
  let config :=
    if network == "ws" then
      let config := if host == "" then config else config ++ "&host=" ++ host
      if path == "" then config else config ++ "&path=" ++ path
    else config
  config ++ "#" ++ remark

/-! ### `json.dumps` (compact, ensure_ascii) and base64, for the vmess body -/

/-- Lowercase hex digit. -/
def hexDigit (n : Nat) : Char :=
  if n < 10 then Char.ofNat (48 + n) else Char.ofNat (87 + n)

def hex4 (n : Nat) : List Char :=
  [hexDigit (n / 4096 % 16), hexDigit (n / 256 % 16), hexDigit (n / 16 % 16), hexDigit (n % 16)]

/-- Escape one character the way `json.dumps` (default `ensure_ascii=True`)
does: short escapes for the common controls, printable ASCII verbatim,
everything else as lowercase `u`-escapes (with surrogate pairs beyond the
basic multilingual plane). -/
def escChar (c : Char) : List Char :=
  if c = '"' then ['\\', '"']
  else if c = '\\' then ['\\', '\\']
  else if c = '\n' then ['\\', 'n']
  else if c = '\r' then ['\\', 'r']
  else if c = '\t' then ['\\', 't']
  else if c.toNat = 8 then ['\\', 'b']
  else if c.toNat = 12 then ['\\', 'f']
  else if 32 ≤ c.toNat ∧ c.toNat ≤ 126 then [c]
  else if c.toNat < 65536 then '\\' :: 'u' :: hex4 c.toNat
  else
    let v := c.toNat - 65536
    ('\\' :: 'u' :: hex4 (55296 + v / 1024)) ++ ('\\' :: 'u' :: hex4 (56320 + v % 1024))

/-- A JSON string literal for `s`. -/
def jsonStr (s : String) : String :=
  String.mk ('"' :: s.data.foldr (fun c acc => escChar c ++ acc) ['"'])

/-- Comma-joined `key:value` pairs, i.e. `json.dumps` with separators
`(',', ':')` over string-valued fields in insertion order. -/
def jsonFields : List (String × String) → String
  | [] => ""
  | [kv] => jsonStr kv.1 ++ ":" ++ jsonStr kv.2
  | kv :: rest => jsonStr kv.1 ++ ":" ++ jsonStr kv.2 ++ "," ++ jsonFields rest

def jsonObjCompact (fields : List (String × String)) : String :=
  "\x7b" ++ jsonFields fields ++ "\x7d"

def b64Char (n : Nat) : Char :=
  if n < 26 then Char.ofNat (65 + n)
  else if n < 52 then Char.ofNat (97 + (n - 26))
  else if n < 62 then Char.ofNat (48 + (n - 52))
  else if n = 62 then '+' else '/'

def b64chunks : List Nat → List Char
  | a :: b :: c :: rest =>
    let x := a * 65536 + b * 256 + c
    b64Char (x / 262144) :: b64Char (x / 4096 % 64) :: b64Char (x / 64 % 64)
      :: b64Char (x % 64) :: b64chunks rest
  | [a, b] =>
    let x := a * 65536 + b * 256
    [b64Char (x / 262144), b64Char (x / 4096 % 64), b64Char (x / 64 % 64), '=']
  | [a] =>
    let x := a * 65536
    [b64Char (x / 262144), b64Char (x / 4096 % 64), '=', '=']
  | [] => []

/-- `base64.b64encode(s.encode()).decode()` for an ASCII string (the vmess
JSON body is pure ASCII after `ensure_ascii` escaping, so its UTF-8 bytes are
the character codes). -/
def b64encodeAscii (s : String) : String :=
  String.mk (b64chunks (s.data.map Char.toNat))

def generate_vmess_config (base_url uuid : String) (port : Int) (remark : String)
    (stream_settings : StreamSettings) : String :=
  let network := stream_settings.network.getD "tcp"
  let security := stream_settings.security.getD "none"
  let host := stream_settings.wsHost.getD ""
  let path := stream_settings.wsPath.getD "/"
  let server := serverFromBaseUrl base_url
  let config_json := jsonObjCompact
    [ ("v", "2"), ("ps", remark), ("add", server), ("port", toString port),
      ("id", uuid), ("aid", "0"), ("net", network), ("type", "none"),
      ("host", host), ("path", path),
      ("tls", if security == "tls" || security == "reality" then security else "none") ]
  "vmess://" ++ b64encodeAscii config_json

/-! ### Shared proof helpers -/

theorem scanFree_ge (used : List Int) : ∀ fuel n, n ≤ scanFree used fuel n := by
  intro fuel
  induction fuel with
  | zero => intro n; exact Nat.le_refl n
  | succ f ih =>
    intro n
    simp only [scanFree]
    split
    · exact Nat.le_trans (Nat.le_succ n) (ih (n + 1))
    · exact Nat.le_refl n

theorem nextFreeNumber_pos (used : List Int) : 1 ≤ nextFreeNumber used :=
  scanFree_ge used (used.length + 1) 1

theorem underscore_one (base : String) : base ++ "_1" = base ++ "_" ++ toString 1 := by
  rw [string_append_assoc]
  congr 1

theorem append_suffix_ne (base t : String) : base ++ "_" ++ t ≠ base := by
  intro h
  have hd : base.data ++ ['_'] ++ t.data = base.data := congrArg String.data h
  have hl := congrArg List.length hd
  simp only [List.length_append, List.length_cons, List.length_nil] at hl
  omega

/-! ### C1 / C2 bug fixtures -/

def envBug : XUIEnv :=
  { authOk := true, httpOk := fun _ => false, genUuid := "gen-uuid",
    genSubId := "gen-sub", nowMs := 0, baseUrl := "http://panel" }

def rosterAlice : List Inbound :=
  [{ id := 1,
     settings := SettingsBlob.json { clients := [{ email := "alice_1" }, { email := "alice_3" }] } }]

def rosterEmptyInbound : List Inbound :=
  [{ id := 1, settings := SettingsBlob.json {} }]

/-- C1 (code_bug evaluation): with the bare base username absent, the
allocator takes the `not has_base_email and 0 not in used_numbers` branch
and returns `alice_1` unconditionally — for the roster `[alice_1, alice_3]`
it returns the occupied handle `alice_1` (the claim and the function's own
docstring demand `alice_2`), and with `alice_1` in `excluded_emails` it
returns the excluded handle `alice_1` (the claim demands `alice_2`). -/
theorem get_next_available_email_bug_eval :
    get_next_available_email envBug rosterAlice 1 "alice" [] = "alice_1" ∧
    get_next_available_email envBug rosterEmptyInbound 1 "alice" ["alice_1"] = "alice_1" ∧
    ("alice_1" : String) ≠ "alice_2" := by
  refine ⟨?_, ?_, ?_⟩ <;> decide

def rosterBob : List Inbound :=
  [{ id := 1, settings := SettingsBlob.json { clients := [{ email := "bob_1" }] } }]

/-- C2 (code_bug evaluation): the retry loop of `_create_client_for_inbound`
does append each failed handle to `attempted_emails` before re-allocating,
makes exactly `max_attempts = 3` attempts, sleeps 1.5 s after each failure
and reports failure with the attempted list only after the ceiling — but
because the allocator ignores `excluded_emails` when the bare base username
is absent, all three attempts use the same handle `bob_1`, refuting the
claim that the same handle is never attempted twice. -/
theorem create_client_attempts_repeats_handle :
    create_client_attempts (fun _ => envBug) rosterBob 1 "bob" 12345 =
      { success := false, attempted := ["bob_1", "bob_1", "bob_1"],
        panel := rosterBob, sleeps := 3 } := by
  decide

/-- C9: `get_next_available_email` is total (the embedding returns on every
path), always returns `base ++ "_" ++ toString n` with `n ≥ 1`, never the
bare base username, and returns the default `base_1` on the authentication
failure, inbound-not-found and malformed-settings (internal exception)
paths. -/
theorem get_next_available_email_shape (env : XUIEnv) (panel : List Inbound)
    (inbound_id : Int) (base : String) (excluded : List String) :
    (∃ n : Nat, 1 ≤ n ∧
      get_next_available_email env panel inbound_id base excluded
        = base ++ "_" ++ toString n) ∧
    get_next_available_email env panel inbound_id base excluded ≠ base ∧
    (env.authOk = false →
      get_next_available_email env panel inbound_id base excluded = base ++ "_1") ∧
    (List.find? (fun i => i.id == inbound_id) (fetchInbounds env panel) = none →
      get_next_available_email env panel inbound_id base excluded = base ++ "_1") ∧
    (∀ ib, List.find? (fun i => i.id == inbound_id) (fetchInbounds env panel) = some ib →
      ib.settings = SettingsBlob.malformed →
      get_next_available_email env panel inbound_id base excluded = base ++ "_1") := by
  have hex : ∃ n : Nat, 1 ≤ n ∧
      get_next_available_email env panel inbound_id base excluded
        = base ++ "_" ++ toString n := by
    unfold get_next_available_email
    split
    · exact ⟨1, Nat.le_refl 1, underscore_one base⟩
    · split
      · exact ⟨1, Nat.le_refl 1, underscore_one base⟩
      · split
        · exact ⟨1, Nat.le_refl 1, underscore_one base⟩
        · refine ⟨_, ?_, rfl⟩
          split
          · exact Nat.le_refl 1
          · exact nextFreeNumber_pos _
  refine ⟨hex, ?_, ?_, ?_, ?_⟩
  · obtain ⟨n, _, heq⟩ := hex
    rw [heq]
    exact append_suffix_ne base (toString n)
  · intro h
    simp [get_next_available_email, h]
  · intro hfind
    unfold get_next_available_email
    split
    · rfl
    · rw [hfind]
  · intro ib hfind hset
    unfold get_next_available_email
    split
    · rfl
    · rw [hfind]
      simp only [hset, clientsOfBlob]

/-- C9 witness: the theorem applied to a concrete environment on its
inbound-not-found hypothesis. -/
theorem get_next_available_email_shape_witness :
    get_next_available_email envBug [] 1 "alice" [] = "alice" ++ "_1" :=
  (get_next_available_email_shape envBug [] 1 "alice" []).2.2.2.1 rfl

/-- Shared helper: with a duplicate handle in the freshly fetched roster,
`add_client_to_inbound` returns false, leaves the panel unchanged, and
issues no mutation request. -/
theorem add_client_dup (env : XUIEnv) (panel : List Inbound) (inbound_id : Int)
    (email : String) (uuid : Option String) (expire_time total_traffic : Option Int)
    (ib : Inbound) (cs : List Client)
    (hauth : env.authOk = true)
    (hfind : List.find? (fun i => i.id == inbound_id) panel = some ib)
    (hblob : clientsOfBlob ib.settings = some cs)
    (hdup : cs.any (fun c => c.email == email) = true) :
    add_client_to_inbound env panel inbound_id email uuid expire_time total_traffic
      = (false, panel, []) := by
  simp [add_client_to_inbound, fetchInbounds, hauth, hfind, hblob, hdup]

/-- Shared helper: with authentication failed, `add_client_to_inbound`
returns false without touching the panel. -/
theorem add_client_noauth (env : XUIEnv) (panel : List Inbound) (inbound_id : Int)
    (email : String) (uuid : Option String) (expire_time total_traffic : Option Int)
    (hauth : env.authOk = false) :
    add_client_to_inbound env panel inbound_id email uuid expire_time total_traffic
      = (false, panel, []) := by
  simp [add_client_to_inbound, hauth]

/-- C5: `get_inbound_clients` returns exactly the client list decoded from
the inbound's settings blob, and degrades to the empty list when the inbound
id is not in the fetched list, when the settings blob is absent, and when it
is malformed JSON (the `json.loads` exception is caught). -/
theorem get_inbound_clients_spec (env : XUIEnv) (panel : List Inbound) (inbound_id : Int)
    (hauth : env.authOk = true) :
    (∀ ib cs, List.find? (fun i => i.id == inbound_id) panel = some ib →
      clientsOfBlob ib.settings = some cs →
      get_inbound_clients env panel inbound_id = cs) ∧
    (List.find? (fun i => i.id == inbound_id) panel = none →
      get_inbound_clients env panel inbound_id = []) ∧
    (∀ ib, List.find? (fun i => i.id == inbound_id) panel = some ib →
      ib.settings = SettingsBlob.absent →
      get_inbound_clients env panel inbound_id = []) ∧
    (∀ ib, List.find? (fun i => i.id == inbound_id) panel = some ib →
      ib.settings = SettingsBlob.malformed →
      get_inbound_clients env panel inbound_id = []) := by
  refine ⟨?_, ?_, ?_, ?_⟩
  · intro ib cs hfind hblob
    simp [get_inbound_clients, fetchInbounds, hauth, hfind, hblob]
  · intro hfind
    simp [get_inbound_clients, fetchInbounds, hauth, hfind]
  · intro ib hfind hset
    simp [get_inbound_clients, fetchInbounds, hauth, hfind, hset, clientsOfBlob]
  · intro ib hfind hset
    simp [get_inbound_clients, fetchInbounds, hauth, hfind, hset, clientsOfBlob]

def envW5 : XUIEnv := { authOk := true }

def clientW5 : Client := { id := "u-5", email := "carol_1" }

def ibW5a : Inbound := { id := 4, settings := SettingsBlob.json { clients := [clientW5] } }

def ibW5b : Inbound := { id := 5, settings := SettingsBlob.malformed }

def panelW5 : List Inbound := [ibW5a, ibW5b]

/-- C5 witness: the theorem applied to a concrete panel, on its well-formed
and malformed conjuncts. -/
theorem get_inbound_clients_spec_witness :
    get_inbound_clients envW5 panelW5 4 = [clientW5] ∧
    get_inbound_clients envW5 panelW5 5 = [] := by
  constructor
  · exact (get_inbound_clients_spec envW5 panelW5 4 rfl).1 ibW5a [clientW5] (by decide) rfl
  · exact (get_inbound_clients_spec envW5 panelW5 5 rfl).2.2.2 ibW5b (by decide) rfl

/-- C10: when the freshly fetched roster already contains the requested
handle, `add_client_to_inbound` returns false with the panel unchanged and
an empty list of issued mutation URLs — the duplicate check precedes every
addClient / update request. -/
theorem add_client_duplicate_no_request (env : XUIEnv) (panel : List Inbound)
    (inbound_id : Int) (email : String) (uuid : Option String)
    (expire_time total_traffic : Option Int) (ib : Inbound) (cs : List Client)
    (hauth : env.authOk = true)
    (hfind : List.find? (fun i => i.id == inbound_id) panel = some ib)
    (hblob : clientsOfBlob ib.settings = some cs)
    (hdup : cs.any (fun c => c.email == email) = true) :
    add_client_to_inbound env panel inbound_id email uuid expire_time total_traffic
      = (false, panel, []) :=
  add_client_dup env panel inbound_id email uuid expire_time total_traffic ib cs
    hauth hfind hblob hdup

def envW10 : XUIEnv :=
  { authOk := true, httpOk := fun _ => true, genUuid := "u-10", genSubId := "s-10",
    baseUrl := "http://h" }

def clientW10 : Client := { email := "dan_1" }

def ibW10 : Inbound := { id := 2, settings := SettingsBlob.json { clients := [clientW10] } }

def panelW10 : List Inbound := [ibW10]

/-- C10 witness: a concrete duplicate call, where even with every mutation
endpoint answering success, no request is recorded. -/
theorem add_client_duplicate_no_request_witness :
    add_client_to_inbound envW10 panelW10 2 "dan_1" none none none
      = (false, panelW10, []) :=
  add_client_duplicate_no_request envW10 panelW10 2 "dan_1" none none none
    ibW10 [clientW10] rfl (by decide) rfl (by decide)

/-- Locating an inbound after a settings rewrite: the lookup predicate only
reads the id, which the rewrite preserves. -/
theorem find_setInboundSettings (panel : List Inbound) (inbound_id : Int) (s : Settings) :
    List.find? (fun i => i.id == inbound_id) (setInboundSettings panel inbound_id s) =
      (List.find? (fun i => i.id == inbound_id) panel).map
        (fun i => { i with settings := SettingsBlob.json s }) := by
  induction panel with
  | nil => rfl
  | cons x xs ih =>
    simp only [setInboundSettings, List.map_cons, List.find?] at ih ⊢
    cases hx : (x.id == inbound_id) with
    | true => simp [hx]
    | false => simp only [hx, if_false, Bool.false_eq_true]; exact ih

/-- Inversion of a successful `add_client_to_inbound`: it found the inbound,
decoded its settings, saw no duplicate, and the resulting panel carries the
roster extended with exactly the new client. -/
theorem add_client_success_inv (env : XUIEnv) (panel : List Inbound) (inbound_id : Int)
    (email : String) (uuid : Option String) (expire_time total_traffic : Option Int)
    (h : (add_client_to_inbound env panel inbound_id email uuid expire_time total_traffic).1
      = true) :
    ∃ ib cs,
      env.authOk = true ∧
      List.find? (fun i => i.id == inbound_id) panel = some ib ∧
      clientsOfBlob ib.settings = some cs ∧
      cs.any (fun c => c.email == email) = false ∧
      (add_client_to_inbound env panel inbound_id email uuid expire_time total_traffic).2.1
        = setInboundSettings panel inbound_id
            { clients := cs ++ [mkNewClient env email uuid expire_time total_traffic] } := by
  by_cases hauth : env.authOk = true
  · cases hfind : List.find? (fun i => i.id == inbound_id) panel with
    | none =>
      rw [show add_client_to_inbound env panel inbound_id email uuid expire_time total_traffic
          = (false, panel, []) by simp [add_client_to_inbound, fetchInbounds, hauth, hfind]] at h
      simp at h
    | some ib =>
      cases hblob : clientsOfBlob ib.settings with
      | none =>
        rw [show add_client_to_inbound env panel inbound_id email uuid expire_time total_traffic
            = (false, panel, []) by
          simp [add_client_to_inbound, fetchInbounds, hauth, hfind, hblob]] at h
        simp at h
      | some cs =>
        cases hdup : cs.any (fun c => c.email == email) with
        | true =>
          rw [add_client_dup env panel inbound_id email uuid expire_time total_traffic ib cs
            hauth hfind hblob hdup] at h
          simp at h
        | false =>
          cases hr1 : (firstOk env.httpOk (add_client_urls env.baseUrl)).2 with
          | true =>
            refine ⟨ib, cs, hauth, rfl, hblob, hdup, ?_⟩
            rw [show add_client_to_inbound env panel inbound_id email uuid expire_time
                  total_traffic
                = (true, setInboundSettings panel inbound_id
                    { clients := cs ++ [mkNewClient env email uuid expire_time total_traffic] },
                   (firstOk env.httpOk (add_client_urls env.baseUrl)).1) by
              simp [add_client_to_inbound, fetchInbounds, hauth, hfind, hblob, hdup, hr1]]
          | false =>
            cases hr2 : (firstOk env.httpOk (add_update_urls env.baseUrl inbound_id)).2 with
            | true =>
              refine ⟨ib, cs, hauth, rfl, hblob, hdup, ?_⟩
              rw [show add_client_to_inbound env panel inbound_id email uuid expire_time
                    total_traffic
                  = (true, setInboundSettings panel inbound_id
                      { clients := cs ++ [mkNewClient env email uuid expire_time total_traffic] },
                     (firstOk env.httpOk (add_client_urls env.baseUrl)).1
                       ++ (firstOk env.httpOk (add_update_urls env.baseUrl inbound_id)).1) by
                simp [add_client_to_inbound, fetchInbounds, hauth, hfind, hblob, hdup, hr1, hr2]]
            | false =>
              rw [show add_client_to_inbound env panel inbound_id email uuid expire_time
                    total_traffic
                  = (false, panel,
                     (firstOk env.httpOk (add_client_urls env.baseUrl)).1
                       ++ (firstOk env.httpOk (add_update_urls env.baseUrl inbound_id)).1) by
                simp [add_client_to_inbound, fetchInbounds, hauth, hfind, hblob, hdup, hr1, hr2]]
                at h
              simp at h
  · rw [add_client_noauth env panel inbound_id email uuid expire_time total_traffic
      (Bool.not_eq_true env.authOk ▸ eq_false_of_ne_true hauth)] at h
    simp at h

/-- C3: if a client with the requested handle already exists in the roster
fetched fresh at the start of the call, `add_client_to_inbound` returns
false (and, being total, does not raise); and after any successful add of a
handle, a second call with the same handle on the same inbound returns
false, leaves the panel unchanged, and the roster has grown by exactly one
client over the two calls. -/
theorem add_client_duplicate_and_twice (env env2 : XUIEnv) (panel : List Inbound)
    (inbound_id : Int) (email : String) (u1 u2 : Option String)
    (e1 e2 t1 t2 : Option Int) :
    (∀ ib cs, env.authOk = true →
      List.find? (fun i => i.id == inbound_id) panel = some ib →
      clientsOfBlob ib.settings = some cs →
      cs.any (fun c => c.email == email) = true →
      (add_client_to_inbound env panel inbound_id email u1 e1 t1).1 = false) ∧
    (∀ p1, (add_client_to_inbound env panel inbound_id email u1 e1 t1).1 = true →
      (add_client_to_inbound env panel inbound_id email u1 e1 t1).2.1 = p1 →
      (add_client_to_inbound env2 p1 inbound_id email u2 e2 t2).1 = false ∧
      (add_client_to_inbound env2 p1 inbound_id email u2 e2 t2).2.1 = p1 ∧
      (clientsOfInbound p1 inbound_id).length
        = (clientsOfInbound panel inbound_id).length + 1) := by
  constructor
  · intro ib cs hauth hfind hblob hdup
    rw [add_client_dup env panel inbound_id email u1 e1 t1 ib cs hauth hfind hblob hdup]
  · intro p1 h hp
    obtain ⟨ib, cs, hauth, hfind, hblob, hdup, hpanel⟩ :=
      add_client_success_inv env panel inbound_id email u1 e1 t1 h
    have hp1 : p1 = setInboundSettings panel inbound_id
        { clients := cs ++ [mkNewClient env email u1 e1 t1] } := by
      rw [← hp, hpanel]
    have hcs : clientsOfInbound panel inbound_id = cs := by
      simp [clientsOfInbound, hfind, hblob]
    have hcs1 : clientsOfInbound p1 inbound_id
        = cs ++ [mkNewClient env email u1 e1 t1] := by
      rw [hp1]
      simp [clientsOfInbound, find_setInboundSettings, hfind, clientsOfBlob]
    have hsecond : add_client_to_inbound env2 p1 inbound_id email u2 e2 t2
        = (false, p1, []) := by
      cases hauth2 : env2.authOk with
      | true =>
        exact add_client_dup env2 p1 inbound_id email u2 e2 t2
          (Inbound.mk ib.id
            (SettingsBlob.json (Settings.mk (cs ++ [mkNewClient env email u1 e1 t1])))
            ib.port ib.remark)
          (cs ++ [mkNewClient env email u1 e1 t1]) hauth2
          (by rw [hp1, find_setInboundSettings, hfind]; rfl) rfl (by simp [mkNewClient])
      | false => exact add_client_noauth env2 p1 inbound_id email u2 e2 t2 hauth2
    refine ⟨?_, ?_, ?_⟩
    · rw [hsecond]
    · rw [hsecond]
    · rw [hcs1, hcs, List.length_append]
      rfl

def envW3 : XUIEnv :=
  { authOk := true, httpOk := fun _ => true, genUuid := "u-3", genSubId := "s-3",
    baseUrl := "http://h" }

def ibW3 : Inbound := { id := 7, settings := SettingsBlob.json { clients := [] } }

def panelW3 : List Inbound := [ibW3]

/-- C3 witness: a concrete first add that succeeds, after which the repeated
add with the same handle fails and the roster has grown by exactly one. -/
theorem add_client_duplicate_and_twice_witness :
    (add_client_to_inbound envW3
        (add_client_to_inbound envW3 panelW3 7 "erin_1" none none none).2.1
        7 "erin_1" none none none).1 = false ∧
    (clientsOfInbound (add_client_to_inbound envW3 panelW3 7 "erin_1" none none none).2.1 7).length
      = (clientsOfInbound panelW3 7).length + 1 := by
  have h := (add_client_duplicate_and_twice envW3 envW3 panelW3 7 "erin_1" none none
      none none none none).2
    (add_client_to_inbound envW3 panelW3 7 "erin_1" none none none).2.1
    (by decide) rfl
  exact ⟨h.1, h.2.2⟩

/-- Finding by a predicate the update preserves locates the updated first
match. -/
theorem find_updateFirst (p : Client → Bool) (f : Client → Client)
    (hf : ∀ x, p (f x) = p x) :
    ∀ (l : List Client) (c : Client), l.find? p = some c →
      (updateFirst p f l).find? p = some (f c) := by
  intro l
  induction l with
  | nil => intro c h; simp [List.find?] at h
  | cons x xs ih =>
    intro c h
    simp only [List.find?] at h
    cases hx : p x with
    | true =>
      rw [hx] at h
      simp only [Option.some.injEq] at h
      subst h
      simp only [updateFirst, hx, if_true, List.find?, hf, hx]
    | false =>
      rw [hx] at h
      simp only [updateFirst, hx, Bool.false_eq_true, if_false, List.find?, hf, hx]
      exact ih c h

/-- C4: when `update_client_expiry` finds the client by handle and one of the
update endpoints succeeds, it returns true and the client's stored expiry
becomes `now + addDays` (in milliseconds) when the old expiry was 0 or in
the past, and exactly `oldExpiry + addDays` otherwise — the extension is
additive, not a reset. -/
theorem update_client_expiry_additive (env : XUIEnv) (panel : List Inbound)
    (inbound_id : Int) (email : String) (add_days : Int) (ib : Inbound)
    (cs : List Client) (c : Client)
    (hauth : env.authOk = true)
    (hfind : List.find? (fun i => i.id == inbound_id) panel = some ib)
    (hblob : clientsOfBlob ib.settings = some cs)
    (hc : cs.find? (fun x => x.email == email) = some c)
    (hok : (firstOk env.httpOk (expiry_update_urls env.baseUrl inbound_id)).2 = true) :
    (update_client_expiry env panel inbound_id email add_days).1 = true ∧
    (clientsOfInbound (update_client_expiry env panel inbound_id email add_days).2
        inbound_id).find? (fun x => x.email == email)
      = some { c with expiryTime :=
          if c.expiryTime = 0 ∨ c.expiryTime < env.nowMs
          then env.nowMs + add_days * 86400000
          else c.expiryTime + add_days * 86400000 } := by
  have hms : add_days * 24 * 60 * 60 * 1000 = add_days * 86400000 := by ring
  have hres : update_client_expiry env panel inbound_id email add_days
      = (true, setInboundSettings panel inbound_id
          (Settings.mk (updateFirst (fun x => x.email == email)
            (fun x => { x with expiryTime :=
              if c.expiryTime = 0 ∨ c.expiryTime < env.nowMs
              then env.nowMs + add_days * 86400000
              else c.expiryTime + add_days * 86400000 }) cs))) := by
    simp only [update_client_expiry, fetchInbounds, hauth, if_true, Bool.not_true,
      Bool.false_eq_true, if_false, hfind, hblob, hc, hok, hms]
  refine ⟨by rw [hres], ?_⟩
  rw [hres]
  have hloc : clientsOfInbound
      (setInboundSettings panel inbound_id
        (Settings.mk (updateFirst (fun x => x.email == email)
          (fun x => { x with expiryTime :=
            if c.expiryTime = 0 ∨ c.expiryTime < env.nowMs
            then env.nowMs + add_days * 86400000
            else c.expiryTime + add_days * 86400000 }) cs))) inbound_id
      = updateFirst (fun x => x.email == email)
          (fun x => { x with expiryTime :=
            if c.expiryTime = 0 ∨ c.expiryTime < env.nowMs
            then env.nowMs + add_days * 86400000
            else c.expiryTime + add_days * 86400000 }) cs := by
    simp [clientsOfInbound, find_setInboundSettings, hfind, clientsOfBlob]
  rw [hloc]
  exact find_updateFirst (fun x => x.email == email)
    (fun x => { x with expiryTime :=
      if c.expiryTime = 0 ∨ c.expiryTime < env.nowMs
      then env.nowMs + add_days * 86400000
      else c.expiryTime + add_days * 86400000 })
    (fun x => rfl) cs c hc

def envW4 : XUIEnv :=
  { authOk := true, httpOk := fun _ => true, nowMs := 1000, baseUrl := "http://h" }

def clientW4 : Client := { email := "fred_1", expiryTime := 0 }

def ibW4 : Inbound := { id := 3, settings := SettingsBlob.json { clients := [clientW4] } }

def panelW4 : List Inbound := [ibW4]

/-- C4 witness: extending an unset (0) expiry by 31 days from `now = 1000`
yields `1000 + 31 * 86400000`. -/
theorem update_client_expiry_additive_witness :
    (update_client_expiry envW4 panelW4 3 "fred_1" 31).1 = true ∧
    (clientsOfInbound (update_client_expiry envW4 panelW4 3 "fred_1" 31).2 3).find?
        (fun x => x.email == "fred_1")
      = some { clientW4 with expiryTime := 1000 + 31 * 86400000 } := by
  have h := update_client_expiry_additive envW4 panelW4 3 "fred_1" 31 ibW4 [clientW4]
    clientW4 rfl (by decide) rfl (by decide) (by decide)
  refine ⟨h.1, ?_⟩
  rw [h.2]
  decide

/-- C7: the vless synthesizer emits
`vless://uuid@host:port?type=network&security=security`; under `reality`
security it appends the public key, a fingerprint defaulting to `chrome`, a
server name falling back to the first `serverNames` entry when no explicit
`serverName` is set, the first `shortIds` entry, and a spider path
defaulting to `/`; under `ws` network it appends the host and path query
parameters; and it always ends with the `#label` fragment. -/
theorem generate_vless_config_spec (base_url uuid : String) (port : Int)
    (remark pk sn sid wsh wsp : String) (sns sids : List String)
    (hpk : pk ≠ "") (hsn : sn ≠ "") (hh : wsh ≠ "") (hp : wsp ≠ "") :
    (generate_vless_config base_url uuid port remark
      { network := some "tcp", security := some "reality", wsHost := none, wsPath := none,
        realitySettings :=
          some { settings := { publicKey := some pk }, serverNames := sn :: sns,
                 shortIds := sid :: sids } } =
      "vless://" ++ uuid ++ "@" ++ serverFromBaseUrl base_url ++ ":" ++ toString port
        ++ "?type=tcp&security=reality&pbk=" ++ pk ++ "&fp=chrome&sni=" ++ sn
        ++ "&sid=" ++ sid ++ "&spx=/#" ++ remark) ∧
    (generate_vless_config base_url uuid port remark
      { network := some "ws", security := some "none", wsHost := some wsh,
        wsPath := some wsp, realitySettings := none } =
      "vless://" ++ uuid ++ "@" ++ serverFromBaseUrl base_url ++ ":" ++ toString port
        ++ "?type=ws&security=none&host=" ++ wsh ++ "&path=" ++ wsp ++ "#" ++ remark) := by
  constructor
  · have hpk' : (pk == "") = false := beq_eq_false_iff_ne.mpr hpk
    have hsn' : (sn == "") = false := beq_eq_false_iff_ne.mpr hsn
    simp only [generate_vless_config, Option.getD_some, Option.getD_none, hpk', hsn']
    simp [hsn]
    apply string_ext
    simp only [string_data_append, List.append_assoc]
    rfl
  · have hh' : (wsh == "") = false := beq_eq_false_iff_ne.mpr hh
    have hp' : (wsp == "") = false := beq_eq_false_iff_ne.mpr hp
    simp only [generate_vless_config, Option.getD_some, Option.getD_none, hh', hp']
    simp [hh, hp]
    apply string_ext
    simp only [string_data_append, List.append_assoc]
    rfl

/-- C7 witness: the reality fixture of the spec (`pbk123`, `sni.example`,
`ab12`, no configured fingerprint) and a ws fixture, evaluated. -/
theorem generate_vless_config_spec_witness :
    generate_vless_config "http://1.2.3.4:54321" "UUID" 443 "Srv"
      { network := some "tcp", security := some "reality", wsHost := none, wsPath := none,
        realitySettings :=
          some { settings := { publicKey := some "pbk123" },
                 serverNames := ["sni.example"], shortIds := ["ab12"] } } =
      "vless://UUID@1.2.3.4:443?type=tcp&security=reality&pbk=pbk123&fp=chrome&sni=sni.example&sid=ab12&spx=/#Srv" ∧
    generate_vless_config "http://1.2.3.4:54321" "UUID" 443 "Srv"
      { network := some "ws", security := some "none", wsHost := some "example.com",
        wsPath := some "/ws", realitySettings := none } =
      "vless://UUID@1.2.3.4:443?type=ws&security=none&host=example.com&path=/ws#Srv" := by
  have h := generate_vless_config_spec "http://1.2.3.4:54321" "UUID" 443 "Srv"
    "pbk123" "sni.example" "ab12" "example.com" "/ws" [] []
    (by decide) (by decide) (by decide) (by decide)
  constructor
  · rw [h.1]; decide
  · rw [h.2]; decide

/-- The compact serialization of the vmess field list: keys in insertion
order, `:` and `,` separators with no whitespace. -/
theorem vmess_json_eq (remark add port uuid net host path tls : String) :
    jsonObjCompact [("v", "2"), ("ps", remark), ("add", add), ("port", port), ("id", uuid),
        ("aid", "0"), ("net", net), ("type", "none"), ("host", host), ("path", path),
        ("tls", tls)] =
      "\x7b\"v\":\"2\",\"ps\":" ++ jsonStr remark ++ ",\"add\":" ++ jsonStr add
        ++ ",\"port\":" ++ jsonStr port ++ ",\"id\":" ++ jsonStr uuid
        ++ ",\"aid\":\"0\",\"net\":" ++ jsonStr net ++ ",\"type\":\"none\",\"host\":" ++ jsonStr host
        ++ ",\"path\":" ++ jsonStr path ++ ",\"tls\":" ++ jsonStr tls ++ "\x7d" := by
  simp only [jsonObjCompact, jsonFields]
  apply string_ext
  simp only [string_data_append, List.append_assoc]
  rfl

/-- C8: the vmess synthesizer base64-encodes, behind the `vmess://` scheme,
the compact JSON object with fields `v="2"`, `ps=label`, `add=host`,
`port=str(port)`, `id=uuid`, `aid="0"`, `net=network`, `type="none"`,
`host`, `path`, and `tls` equal to the security value exactly when it is
`tls` or `reality` and `"none"` otherwise. -/
theorem generate_vmess_config_spec (base_url uuid : String) (port : Int)
    (remark : String) (ss : StreamSettings) :
    generate_vmess_config base_url uuid port remark ss =
      "vmess://" ++ b64encodeAscii (
        "\x7b\"v\":\"2\",\"ps\":" ++ jsonStr remark
        ++ ",\"add\":" ++ jsonStr (serverFromBaseUrl base_url)
        ++ ",\"port\":" ++ jsonStr (toString port)
        ++ ",\"id\":" ++ jsonStr uuid
        ++ ",\"aid\":\"0\",\"net\":" ++ jsonStr (ss.network.getD "tcp")
        ++ ",\"type\":\"none\",\"host\":" ++ jsonStr (ss.wsHost.getD "")
        ++ ",\"path\":" ++ jsonStr (ss.wsPath.getD "/")
        ++ ",\"tls\":" ++ jsonStr (if ss.security.getD "none" == "tls"
            || ss.security.getD "none" == "reality" then ss.security.getD "none" else "none")
        ++ "\x7d") := by
  simp only [generate_vmess_config]
  rw [vmess_json_eq]

def ibC6 : Inbound := { id := 9, settings := SettingsBlob.json { clients := [] } }

/-- A panel whose first list-inbounds candidate answers HTTP 200 with a
JSON-parsable `success:true` body but a `text/plain` content-type; every
other candidate is a 404. -/
def envC6 : GIEnv :=
  { baseUrl := "http://x", loginOk := true,
    resp := fun url method =>
      if url = "http://x/panel/panel/inbounds" ∧ method = "GET" then
        some { status := 200, contentType := "text/plain", body := RespBody.json true [ibC6] }
      else some { status := 404, contentType := "text/html", body := RespBody.badJson true },
    reloginOk := false,
    retryResp := fun _ _ => none }

/-- C6 counterexample: `get_inbounds` accepts a 200 response whose
content-type is `text/plain` — not JSON — as long as the body parses with
`success:true` (the source only skips bodies labelled HTML without JSON),
refuting the claim that acceptance requires a JSON content-type. -/
theorem get_inbounds_ct_counterexample :
    get_inbounds envC6 = [ibC6] ∧
    strContains (strToLower "text/plain") "application/json" = false := by
  constructor <;> decide

/-- C6 (amended): a candidate's 200 response is accepted exactly when its
content-type is not HTML-labelled-without-JSON and its body parses as JSON
with `success:true`; an HTML-labelled 200 and a 404 move the resolver to
the next candidate; a 401/403 triggers one re-authentication and, if that
succeeds, one retry of the same candidate, accepted only as a 200 with
`success:true`, otherwise the resolver moves on; and the candidate loop
returns the first accepted candidate's `obj`. -/
theorem get_inbounds_resolver_spec (env : GIEnv) (url method : String) (r : HttpResp)
    (rest : List (String × String)) (obj : List Inbound) :
    (env.resp url method = some r → r.status = 200 →
      (processCandidate env url method = some obj ↔
        (!(strContains (strToLower r.contentType) "application/json")
          && strContains (strToLower r.contentType) "text/html") = false ∧
        r.body = RespBody.json true obj)) ∧
    (env.resp url method = some r → r.status = 404 →
      processCandidate env url method = none) ∧
    (env.resp url method = some r → r.status = 200 →
      strContains (strToLower r.contentType) "application/json" = false →
      strContains (strToLower r.contentType) "text/html" = true →
      processCandidate env url method = none) ∧
    (env.resp url method = some r → r.status = 401 ∨ r.status = 403 →
      processCandidate env url method =
        (if env.reloginOk then
          match env.retryResp url method with
          | none => none
          | some rr =>
            if rr.status = 200 then
              match rr.body with
              | RespBody.json success o => if success then some o else none
              | RespBody.badJson _ => none
            else none
        else none)) ∧
    (processCandidate env url method = some obj →
      resolveInbounds env ((url, method) :: rest) = obj) ∧
    (processCandidate env url method = none →
      resolveInbounds env ((url, method) :: rest) = resolveInbounds env rest) := by
  refine ⟨?_, ?_, ?_, ?_, ?_, ?_⟩
  · intro hr h200
    simp only [processCandidate, hr]
    rw [if_pos h200]
    cases hct : (!(strContains (strToLower r.contentType) "application/json")
        && strContains (strToLower r.contentType) "text/html") with
    | true => simp [hct]
    | false =>
      cases hb : r.body with
      | json success o => cases success <;> simp [hct, hb]
      | badJson sh => simp [hct, hb]
  · intro hr h404
    simp [processCandidate, hr, h404]
  · intro hr h200 hj hh
    simp [processCandidate, hr, h200, hj, hh]
  · intro hr h40x
    cases h40x with
    | inl h401 => simp [processCandidate, hr, h401]
    | inr h403 => simp [processCandidate, hr, h403]
  · intro h
    simp [resolveInbounds, h]
  · intro h
    simp [resolveInbounds, h]

def rW6 : HttpResp := { status := 404, contentType := "", body := RespBody.badJson false }

def envW6 : GIEnv :=
  { baseUrl := "b", loginOk := true, resp := fun _ _ => some rW6,
    reloginOk := true, retryResp := fun _ _ => none }

/-- C6 witness: the amended theorem applied to a concrete 404 response. -/
theorem get_inbounds_resolver_spec_witness :
    processCandidate envW6 "u" "GET" = none :=
  (get_inbounds_resolver_spec envW6 "u" "GET" rW6 [] []).2.1 rfl rfl
